import Mathlib

/-
Shallow embedding of the rate-limiting / violation-tracking / blocking core of
the AI2talk bot (components/rate_limiter.py, components/user_data_manager.py,
handlers/owner_handlers.py, handlers/payment_handlers.py).

Modelling conventions:
- timestamps and durations are integers, measured in seconds (the source uses
  timezone-aware datetimes; only ordering and second-granularity differences
  matter for the verified properties);
- the per-user SQLite tables are modelled for the single user under scrutiny:
  an optional settings row and an optional block row (blocked_until_iso can be
  NULL, hence an inner Option);
- the process-wide global ledger total_daily_requests_rl is a list of
  timestamps, threaded through the state;
- trust membership (user_id in settings.TRUSTED_USERS_SET) is a Bool argument;
- message sending and logging are no-ops and are dropped.
-/

namespace AI2talk

/-- Conversational modes, from user_data_manager.BotState. -/
inductive BotState where
  | NONE
  | GEMINI_MODE
  | FLUX_PROMPT
  | FLUX_DIMENSIONS
  | MISTRAL_MODE
  | WAITING_FOR_FORWARD
  | DONATE_CUSTOM_AMOUNT_INPUT
  deriving DecidableEq, Repr

/-- Persistent per-user settings row (language, gemini_model). -/
structure UserPersistentSettings where
  language : String
  geminiModel : String
  deriving DecidableEq, Repr

/-- Defaults from settings_config: DEFAULT_LANGUAGE, DEFAULT_GEMINI_MODEL. -/
def defaultPersistentSettings : UserPersistentSettings :=
  { language := "en", geminiModel := "gemini-2.5-flash-preview-05-20" }

/-- In-memory session record, from user_data_manager.UserData (the fields the
rate-limiting core reads or writes; scratch fields not touched by the
verified operations are omitted). -/
structure UserData where
  persistentSettings : UserPersistentSettings
  state : BotState
  geminiChat : Option Unit
  requestsTimestamps : List Int
  lastRequestTimestamp : Option Int
  violations : Int
  blockedUntilTimestamp : Option Int
  mistralChatHistory : List String
  lastRateRequestTimestamp : Option Int
  deriving DecidableEq, Repr

/-- A fresh UserData, as built by the UserData dataclass defaults. -/
def newUserData (ps : UserPersistentSettings) : UserData :=
  { persistentSettings := ps
    state := BotState.NONE
    geminiChat := none
    requestsTimestamps := []
    lastRequestTimestamp := none
    violations := 0
    blockedUntilTimestamp := none
    mistralChatHistory := []
    lastRateRequestTimestamp := none }

/-- UserData.reset_chat_histories: gemini_chat = None, mistral history cleared. -/
def UserData.resetChatHistories (u : UserData) : UserData :=
  { u with geminiChat := none, mistralChatHistory := [] }

/-- Rate-limiting configuration, from settings_config.BotSettings. -/
structure RLSettings where
  maxRequestsPerDay : Nat
  maxRequestsPerUserPerDay : Nat
  maxRequestsPerMinute : Nat
  requestCooldownSeconds : Int
  userBlockDurationHours : Int
  limitViolationsBeforeBlock : Int
  deriving DecidableEq, Repr

/-- The default configuration values of settings_config.BotSettings. -/
def defaultSettings : RLSettings :=
  { maxRequestsPerDay := 200
    maxRequestsPerUserPerDay := 20
    maxRequestsPerMinute := 6
    requestCooldownSeconds := 2
    userBlockDurationHours := 1
    limitViolationsBeforeBlock := 5 }

/-- Combined mutable state for one user under scrutiny: the user_data_store
cache entry, the user_settings row, the blocked_users row
(blocked_until_iso, violations), and the global ledger
total_daily_requests_rl. -/
structure SysState where
  cache : Option UserData
  dbSettings : Option UserPersistentSettings
  dbBlock : Option (Option Int × Int)
  ledger : List Int
  deriving DecidableEq, Repr

/-- Store the (mutated) session object back in user_data_store; in the source
this is implicit aliasing of the cached object. -/
def writeBack (s : SysState) (u : UserData) : SysState :=
  { s with cache := some u }

/-- UserData.unblock: clear blocked_until_timestamp, zero violations, and
delete the blocked_users row (unblock_user_db). -/
def unblockUser (u : UserData) (s : SysState) : UserData × SysState :=
  ({ u with blockedUntilTimestamp := none, violations := 0 },
   { s with dbBlock := none })

/-- Whether the cached session exists and carries a block timestamp. -/
def cachedHasBlock (s : SysState) : Bool :=
  match s.cache with
  | some ud => ud.blockedUntilTimestamp.isSome
  | none => false

/-- user_data_manager.check_and_unblock_if_trusted: for a trusted user, clear
an active cached block (zeroing violations, deleting the DB row if present);
otherwise delete a DB block row that is permanent (NULL) or unexpired. -/
def checkAndUnblockIfTrusted (trusted : Bool) (now : Int) (s : SysState) :
    SysState :=
  if trusted = false then s
  else if cachedHasBlock s then
    let clearBlock : UserData → UserData := fun ud =>
      { ud with blockedUntilTimestamp := none, violations := 0 }
    let s1 := { s with cache := s.cache.map clearBlock }
    if s1.dbBlock.isSome then { s1 with dbBlock := none } else s1
  else
    match s.dbBlock with
    | some (unblockTime, _v) =>
      match unblockTime with
      | none => { s with dbBlock := none }
      | some t => if now < t then { s with dbBlock := none } else s
    | none => s

/-- user_data_manager.get_user_data: cache hit reconciles trust and returns
the cached record; cache miss loads (or creates and saves) settings, loads an
active block row for a non-trusted user (deleting an expired one), deletes any
block row for a trusted user, and inserts the new session into the cache. -/
def getUserData (trusted : Bool) (now : Int) (s : SysState) :
    UserData × SysState :=
  match s.cache with
  | some _ =>
    let s1 := checkAndUnblockIfTrusted trusted now s
    (s1.cache.getD (newUserData defaultPersistentSettings), s1)
  | none =>
    let ps := s.dbSettings.getD defaultPersistentSettings
    let s1 := if s.dbSettings.isSome then s
              else { s with dbSettings := some defaultPersistentSettings }
    if trusted = false then
      match s1.dbBlock with
      | some (blockedUntil, violationsCount) =>
        match blockedUntil with
        | none =>
          let u := { newUserData ps with
            blockedUntilTimestamp := none, violations := violationsCount }
          (u, { s1 with cache := some u })
        | some b =>
          if now < b then
            let u := { newUserData ps with
              blockedUntilTimestamp := some b, violations := violationsCount }
            (u, { s1 with cache := some u })
          else
            let u := newUserData ps
            (u, { s1 with dbBlock := none, cache := some u })
      | none =>
        let u := newUserData ps
        (u, { s1 with cache := some u })
    else
      let u := newUserData ps
      (u, { s1 with dbBlock := none, cache := some u })

/-- Outcome of a check_rate_limits call, tagged by the branch that produced
it (the tags mirror the notification keys of the source). -/
inductive RLOutcome where
  | passed
  | blockedActive
  | rateCooldown
  | totalDailyLimit
  | userDailyLimit
  | minuteLimit
  | cooldown
  deriving DecidableEq, Repr

/-- The command_type argument of check_rate_limits. -/
inductive CommandType where
  | general
  | rate
  deriving DecidableEq, Repr

/-- rate_limiter.handle_limit_violation: bump the violation counter; at the
threshold set blocked_until = now + USER_BLOCK_DURATION_HOURS, persist the
block row, force state to NONE and drop chat histories. -/
def handleLimitViolation (cfg : RLSettings) (now : Int) (u : UserData)
    (s : SysState) : UserData × SysState :=
  let u1 := { u with violations := u.violations + 1 }
  if cfg.limitViolationsBeforeBlock ≤ u1.violations then
    let blockUntil := now + cfg.userBlockDurationHours * 3600
    let u2 := { u1 with blockedUntilTimestamp := some blockUntil }
    let s1 := { s with dbBlock := some (some blockUntil, u1.violations) }
    let u3 := { u2 with state := BotState.NONE }
    (u3.resetChatHistories, s1)
  else
    (u1, s)

/-- rate_limiter.check_rate_limits, instrumented to report which branch
decided the call. The boolean result of the source is
(outcome = RLOutcome.passed). -/
def checkRateLimitsR (cfg : RLSettings) (trusted : Bool) (now : Int)
    (commandType : CommandType) (incrementRequestCount : Bool)
    (s0 : SysState) : RLOutcome × SysState :=
  let us := getUserData trusted now s0
  let u0 := us.1
  let s1 := us.2
  if trusted then (RLOutcome.passed, s1)
  else
    let blockedNow : Bool :=
      match u0.blockedUntilTimestamp with
      | some bu => decide (now < bu)
      | none => false
    if blockedNow then (RLOutcome.blockedActive, s1)
    else
      let u1s2 : UserData × SysState :=
        match u0.blockedUntilTimestamp with
        | some _ => unblockUser u0 s1
        | none => (u0, s1)
      let u1 := u1s2.1
      let s2 := u1s2.2
      match commandType with
      | CommandType.rate =>
        let tooSoon : Bool :=
          match u1.lastRateRequestTimestamp with
          | some last => decide (now - last < 60)
          | none => false
        if tooSoon then (RLOutcome.rateCooldown, writeBack s2 u1)
        else
          let u2 := { u1 with lastRateRequestTimestamp := some now }
          (RLOutcome.passed, writeBack s2 u2)
      | CommandType.general =>
        let dayAgo := now - 24 * 3600
        let prunedUserTs :=
          u1.requestsTimestamps.filter (fun t => decide (dayAgo < t))
        let u2 := { u1 with requestsTimestamps := prunedUserTs }
        let prunedLedger := s2.ledger.filter (fun t => decide (dayAgo < t))
        let s3 := { s2 with ledger := prunedLedger }
        if cfg.maxRequestsPerDay ≤ s3.ledger.length then
          let vres := handleLimitViolation cfg now u2 s3
          (RLOutcome.totalDailyLimit, writeBack vres.2 vres.1)
        else if cfg.maxRequestsPerUserPerDay ≤ u2.requestsTimestamps.length then
          let vres := handleLimitViolation cfg now u2 s3
          (RLOutcome.userDailyLimit, writeBack vres.2 vres.1)
        else
          let minuteAgo := now - 60
          if cfg.maxRequestsPerMinute ≤
              (u2.requestsTimestamps.filter
                (fun t => decide (minuteAgo < t))).length then
            let vres := handleLimitViolation cfg now u2 s3
            (RLOutcome.minuteLimit, writeBack vres.2 vres.1)
          else
            let inCooldown : Bool :=
              match u2.lastRequestTimestamp with
              | some last => decide (now - last < cfg.requestCooldownSeconds)
              | none => false
            if inCooldown then (RLOutcome.cooldown, writeBack s3 u2)
            else if incrementRequestCount then
              let u3 := { u2 with
                requestsTimestamps := u2.requestsTimestamps ++ [now]
                lastRequestTimestamp := some now }
              let s4 := { s3 with ledger := s3.ledger ++ [now] }
              (RLOutcome.passed, writeBack s4 u3)
            else
              (RLOutcome.passed, writeBack s3 u2)

/-- The boolean result of check_rate_limits. -/
def checkRateLimits (cfg : RLSettings) (trusted : Bool) (now : Int)
    (commandType : CommandType) (incrementRequestCount : Bool)
    (s0 : SysState) : Bool :=
  if (checkRateLimitsR cfg trusted now commandType
       incrementRequestCount s0).1 = RLOutcome.passed
  then true else false

/-- rate_limiter.is_user_blocked: report an active block; clear an expired
one via UserData.unblock. -/
def isUserBlocked (trusted : Bool) (now : Int) (s0 : SysState) :
    Bool × SysState :=
  let us := getUserData trusted now s0
  let u := us.1
  let s1 := us.2
  match u.blockedUntilTimestamp with
  | some bu =>
    if now < bu then (true, s1)
    else
      let r := unblockUser u s1
      (false, writeBack r.2 r.1)
  | none => (false, s1)

/-- The state mutation of the /ban handler once its guards pass: persist a
100-year block with sentinel violations -1, then force the cached session
into the banned shape. -/
def banUserBody (trusted : Bool) (now : Int) (s0 : SysState) : SysState :=
  let blockedUntil := now + 365 * 100 * 86400
  let s1 := { s0 with dbBlock := some (some blockedUntil, -1) }
  let us := getUserData trusted now s1
  let u := us.1
  let s2 := us.2
  let u1 := { u with
    blockedUntilTimestamp := some blockedUntil
    violations := -1
    state := BotState.NONE }
  writeBack s2 u1.resetChatHistories

/-- owner_handlers.ban_user_command_handler (state effects): no-op when the
user is already manually banned (violations -1 and unexpired), or when the
stored row has a NULL timestamp (the source's comparison then raises and the
handler catches it without mutating state). -/
def banUserAction (trusted : Bool) (now : Int) (s0 : SysState) : SysState :=
  match s0.dbBlock with
  | some (some t, v) =>
    if v = -1 ∧ now < t then s0 else banUserBody trusted now s0
  | some (none, _v) => s0
  | none => banUserBody trusted now s0

/-- owner_handlers.unban_user_command_handler (state effects): an absent or
already-expired row is deleted and a cached session unblocked; an unexpired
row leads to get_user_data followed by UserData.unblock; a NULL-timestamp row
makes the source's comparison raise, caught without mutating state. -/
def unbanUserAction (trusted : Bool) (now : Int) (s0 : SysState) : SysState :=
  match s0.dbBlock with
  | some (some t, _v) =>
    if t < now then
      let s1 := { s0 with dbBlock := none }
      match s1.cache with
      | some u =>
        let r := unblockUser u s1
        writeBack r.2 r.1
      | none => s1
    else
      let us := getUserData trusted now s0
      let r := unblockUser us.1 us.2
      writeBack r.2 r.1
  | some (none, _v) => s0
  | none =>
    let s1 := { s0 with dbBlock := none }
    match s1.cache with
    | some u =>
      let r := unblockUser u s1
      writeBack r.2 r.1
    | none => s1

/-- payment_handlers.successful_payment_handler (block/trust effects): fetch
the session, unblock if a block timestamp is set, grant trust (DB insert and
cache invalidation make the user trusted), then reconcile via
check_and_unblock_if_trusted with the user now trusted. -/
def paymentSuccessAction (trusted : Bool) (now : Int) (s0 : SysState) :
    SysState :=
  let us := getUserData trusted now s0
  let u := us.1
  let s1 := us.2
  let r : UserData × SysState :=
    if u.blockedUntilTimestamp.isSome then unblockUser u s1 else (u, s1)
  let s3 := writeBack r.2 r.1
  checkAndUnblockIfTrusted true now s3

/-! ### Helper lemmas -/

theorem reconcile_not_trusted (now : Int) (s : SysState) :
    checkAndUnblockIfTrusted false now s = s := by
  simp [checkAndUnblockIfTrusted]

theorem getUserData_cacheHit_not_trusted (now : Int) (u : UserData)
    (dbS : Option UserPersistentSettings) (dbB : Option (Option Int × Int))
    (led : List Int) :
    getUserData false now ⟨some u, dbS, dbB, led⟩ =
      (u, ⟨some u, dbS, dbB, led⟩) := by
  simp [getUserData, reconcile_not_trusted]

theorem reconcile_ledger (trusted : Bool) (now : Int) (s : SysState) :
    (checkAndUnblockIfTrusted trusted now s).ledger = s.ledger := by
  unfold checkAndUnblockIfTrusted
  dsimp only
  repeat' split
  all_goals rfl

theorem reconcile_trusted_cache (now : Int) (u : UserData)
    (dbS : Option UserPersistentSettings) (dbB : Option (Option Int × Int))
    (led : List Int) :
    (checkAndUnblockIfTrusted true now ⟨some u, dbS, dbB, led⟩).cache =
      some (if u.blockedUntilTimestamp.isSome
            then { u with blockedUntilTimestamp := none, violations := 0 }
            else u) := by
  unfold checkAndUnblockIfTrusted cachedHasBlock
  cases hub : u.blockedUntilTimestamp <;> simp [hub] <;> (repeat' split) <;> rfl

theorem checkRL_trusted (cfg : RLSettings) (now : Int) (cmd : CommandType)
    (incr : Bool) (s : SysState) :
    checkRateLimitsR cfg true now cmd incr s =
      (RLOutcome.passed, (getUserData true now s).2) := by
  simp [checkRateLimitsR]

theorem getUserData_cacheHit_snd (trusted : Bool) (now : Int) (u : UserData)
    (dbS : Option UserPersistentSettings) (dbB : Option (Option Int × Int))
    (led : List Int) :
    (getUserData trusted now ⟨some u, dbS, dbB, led⟩).2 =
      checkAndUnblockIfTrusted trusted now ⟨some u, dbS, dbB, led⟩ := by
  simp [getUserData]

/-! ### Claims -/

/-- Claim C3 (amended): a trusted user passes check_rate_limits for every
category and increment flag; the request-timestamp list, global ledger and
last-request timestamps are untouched and no block is ever set, but the trust
reconciliation performed by get_user_data clears an active cached block and
in doing so resets the violation counter to 0 (so the counter is NOT left
unchanged when the trusted user carried a block). -/
theorem C3_trusted_always_passes (cfg : RLSettings) (now : Int)
    (cmd : CommandType) (incr : Bool) (u : UserData)
    (dbS : Option UserPersistentSettings) (dbB : Option (Option Int × Int))
    (led : List Int) :
    (checkRateLimitsR cfg true now cmd incr ⟨some u, dbS, dbB, led⟩).1 =
      RLOutcome.passed ∧
    (checkRateLimitsR cfg true now cmd incr ⟨some u, dbS, dbB, led⟩).2.ledger =
      led ∧
    (checkRateLimitsR cfg true now cmd incr ⟨some u, dbS, dbB, led⟩).2.cache =
      some (if u.blockedUntilTimestamp.isSome
            then { u with blockedUntilTimestamp := none, violations := 0 }
            else u) := by
  rw [checkRL_trusted, getUserData_cacheHit_snd]
  exact ⟨rfl, reconcile_ledger true now _, reconcile_trusted_cache now u dbS dbB led⟩

/-- The trusted cached user of the C3 counterexample: five violations and an
active block. -/
def uC3 : UserData :=
  { newUserData defaultPersistentSettings with
    violations := 5
    blockedUntilTimestamp := some 100 }

/-- System state for the C3 counterexample. -/
def sC3 : SysState :=
  ⟨some uC3, some defaultPersistentSettings, some (some 100, 5), []⟩

/-- Claim C3 counterexample: for a trusted user whose cached session carries
an active block and violation counter 5, check_rate_limits returns true but
the violation counter is changed from 5 to 0, refuting the claim that the
violation counter is left unchanged. -/
theorem C3_counterexample :
    uC3.violations = 5 ∧
    (checkRateLimitsR defaultSettings true 0 CommandType.general true sC3).1 =
      RLOutcome.passed ∧
    (checkRateLimitsR defaultSettings true 0 CommandType.general true
        sC3).2.cache.map UserData.violations = some 0 := by
  refine ⟨rfl, rfl, rfl⟩

/-- Claim C9 (confirmed): on the specialized "rate" category, a non-trusted,
non-blocked user fails exactly when a last rate-request timestamp exists with
strictly fewer than 60 seconds elapsed; a passing check records only the new
last-rate timestamp, a failing one changes nothing, and in both cases the
general counters (request list, ledger, last general-request timestamp,
violation counter) and the block state are untouched. -/
theorem C9_rate_category (cfg : RLSettings) (now : Int) (incr : Bool)
    (u : UserData) (dbS : Option UserPersistentSettings)
    (dbB : Option (Option Int × Int)) (led : List Int)
    (hb : u.blockedUntilTimestamp = none) :
    ((checkRateLimitsR cfg false now CommandType.rate incr
        ⟨some u, dbS, dbB, led⟩).1 = RLOutcome.rateCooldown ↔
      ∃ last, u.lastRateRequestTimestamp = some last ∧ now - last < 60) ∧
    ((checkRateLimitsR cfg false now CommandType.rate incr
        ⟨some u, dbS, dbB, led⟩).1 = RLOutcome.rateCooldown ∨
      (checkRateLimitsR cfg false now CommandType.rate incr
        ⟨some u, dbS, dbB, led⟩).1 = RLOutcome.passed) ∧
    ((checkRateLimitsR cfg false now CommandType.rate incr
        ⟨some u, dbS, dbB, led⟩).1 = RLOutcome.passed →
      (checkRateLimitsR cfg false now CommandType.rate incr
        ⟨some u, dbS, dbB, led⟩).2 =
        ⟨some { u with lastRateRequestTimestamp := some now }, dbS, dbB, led⟩) ∧
    ((checkRateLimitsR cfg false now CommandType.rate incr
        ⟨some u, dbS, dbB, led⟩).1 = RLOutcome.rateCooldown →
      (checkRateLimitsR cfg false now CommandType.rate incr
        ⟨some u, dbS, dbB, led⟩).2 = ⟨some u, dbS, dbB, led⟩) := by
  unfold checkRateLimitsR
  rw [getUserData_cacheHit_not_trusted]
  dsimp only
  rw [hb]
  cases hl : u.lastRateRequestTimestamp with
  | none => simp [hb, hl, writeBack]
  | some last =>
    by_cases hlt : now - last < 60 <;>
      simp [hb, hl, hlt, writeBack]

/-- A non-blocked user whose last /rate request was at time 100. -/
def uC9 : UserData :=
  { newUserData defaultPersistentSettings with
    lastRateRequestTimestamp := some 100 }

/-- Claim C9 witness: at 59 elapsed seconds the rate check fails, at 60 it
passes and records only the new last-rate timestamp. -/
theorem C9_rate_category_witness :
    (checkRateLimitsR defaultSettings false 159 CommandType.rate true
        ⟨some uC9, some defaultPersistentSettings, none, []⟩).1 =
      RLOutcome.rateCooldown ∧
    (checkRateLimitsR defaultSettings false 160 CommandType.rate true
        ⟨some uC9, some defaultPersistentSettings, none, []⟩).2 =
      ⟨some { uC9 with lastRateRequestTimestamp := some 160 },
        some defaultPersistentSettings, none, []⟩ :=
  ⟨(C9_rate_category defaultSettings 159 true uC9 (some defaultPersistentSettings)
      none [] rfl).1.mpr ⟨100, rfl, by decide⟩,
   (C9_rate_category defaultSettings 160 true uC9 (some defaultPersistentSettings)
      none [] rfl).2.2.1 (by decide)⟩

/-- Claim C2 (confirmed): with the default configuration (per-minute max 6,
per-user daily max 20, cooldown 2 s), a fresh non-trusted, non-blocked user
passes one incrementing general check at t0, and a second general check
within the same second fails with the cooldown outcome — not the per-minute
outcome — and the violation counter stays 0. -/
theorem C2_cooldown_fires_before_minute (ps : UserPersistentSettings)
    (dbS : Option UserPersistentSettings) (dbB : Option (Option Int × Int))
    (t0 now2 : Int) (h1 : t0 ≤ now2) (h2 : now2 - t0 < 2) :
    (checkRateLimitsR defaultSettings false t0 CommandType.general true
        ⟨some (newUserData ps), dbS, dbB, []⟩).1 = RLOutcome.passed ∧
    (checkRateLimitsR defaultSettings false now2 CommandType.general true
        (checkRateLimitsR defaultSettings false t0 CommandType.general true
          ⟨some (newUserData ps), dbS, dbB, []⟩).2).1 = RLOutcome.cooldown ∧
    (checkRateLimitsR defaultSettings false now2 CommandType.general true
        (checkRateLimitsR defaultSettings false t0 CommandType.general true
          ⟨some (newUserData ps), dbS, dbB, []⟩).2).2.cache.map
      UserData.violations = some 0 := by
  have hfirst : checkRateLimitsR defaultSettings false t0 CommandType.general true
      ⟨some (newUserData ps), dbS, dbB, []⟩ =
      (RLOutcome.passed,
        ⟨some { newUserData ps with
                  requestsTimestamps := [t0]
                  lastRequestTimestamp := some t0 },
          dbS, dbB, [t0]⟩) := by
    unfold checkRateLimitsR
    rw [getUserData_cacheHit_not_trusted]
    simp [newUserData, defaultSettings, writeBack]
  refine ⟨by rw [hfirst], ?_, ?_⟩ <;>
  · rw [hfirst]
    unfold checkRateLimitsR
    rw [getUserData_cacheHit_not_trusted]
    simp [newUserData, defaultSettings, writeBack,
      show now2 - 86400 < t0 by omega,
      show now2 - 60 < t0 by omega,
      show now2 - t0 < 2 from h2]

/-- Claim C2 witness: both requests at t = 10; the second fails with the
cooldown outcome and zero violations. -/
theorem C2_cooldown_fires_before_minute_witness :
    (checkRateLimitsR defaultSettings false 10 CommandType.general true
        (checkRateLimitsR defaultSettings false 10 CommandType.general true
          ⟨some (newUserData defaultPersistentSettings),
            some defaultPersistentSettings, none, []⟩).2).1 =
      RLOutcome.cooldown ∧
    (checkRateLimitsR defaultSettings false 10 CommandType.general true
        (checkRateLimitsR defaultSettings false 10 CommandType.general true
          ⟨some (newUserData defaultPersistentSettings),
            some defaultPersistentSettings, none, []⟩).2).2.cache.map
      UserData.violations = some 0 :=
  ⟨(C2_cooldown_fires_before_minute defaultPersistentSettings
      (some defaultPersistentSettings) none 10 10 (by decide) (by decide)).2.1,
   (C2_cooldown_fires_before_minute defaultPersistentSettings
      (some defaultPersistentSettings) none 10 10 (by decide) (by decide)).2.2⟩

/-- The C1 counterexample user: 20 requests inside the trailing 24 h window,
four violations already recorded. -/
def uC1 : UserData :=
  { newUserData defaultPersistentSettings with
    requestsTimestamps := List.replicate 20 1
    lastRequestTimestamp := some 1
    violations := 4 }

/-- System state for the C1 counterexample. -/
def sC1 : SysState :=
  ⟨some uC1, some defaultPersistentSettings, none, List.replicate 20 1⟩

/-- State after the C1 counterexample's blocking call at t = 10. -/
def sC1after : SysState :=
  (checkRateLimitsR defaultSettings false 10 CommandType.general true sC1).2

/-- Claim C1 counterexample: the call at t = 10 takes the violation counter
to the threshold 5 and blocks until 3610 = 10 + 1 h; the check at t = 3609
fails as claimed, but the first check at the blocked-until timestamp 3610
returns false (the user is still over the per-user daily cap), refuting the
claim that the first check at or after blocked-until returns true. -/
theorem C1_counterexample :
    (checkRateLimitsR defaultSettings false 10 CommandType.general true
        sC1).1 = RLOutcome.userDailyLimit ∧
    sC1after.cache.map UserData.violations = some 5 ∧
    defaultSettings.limitViolationsBeforeBlock = 5 ∧
    sC1after.cache.map UserData.blockedUntilTimestamp = some (some 3610) ∧
    sC1after.dbBlock = some (some 3610, 5) ∧
    checkRateLimits defaultSettings false 3609 CommandType.general true
      sC1after = false ∧
    checkRateLimits defaultSettings false 3610 CommandType.general true
      sC1after = false := by
  refine ⟨rfl, rfl, rfl, rfl, rfl, rfl, rfl⟩

/-- Claim C1 (amended): for a non-trusted user with a set blocked-until
timestamp, every general-path check strictly before that timestamp returns
false and leaves the whole state unchanged (no violation added); a check at
or after the timestamp clears the block in both the session and the store
and continues evaluation in the same call, returning true when no quota or
cooldown check fails afterwards (it may still return false when one does). -/
theorem C1_block_window (cfg : RLSettings) (u : UserData)
    (dbS : Option UserPersistentSettings) (dbB : Option (Option Int × Int))
    (led : List Int) (incr : Bool) (now bu : Int)
    (hb : u.blockedUntilTimestamp = some bu) :
    (now < bu →
      checkRateLimitsR cfg false now CommandType.general incr
          ⟨some u, dbS, dbB, led⟩ =
        (RLOutcome.blockedActive, ⟨some u, dbS, dbB, led⟩)) ∧
    (bu ≤ now →
      (led.filter (fun t => decide (now - 86400 < t))).length <
          cfg.maxRequestsPerDay →
      (u.requestsTimestamps.filter (fun t => decide (now - 86400 < t))).length <
          cfg.maxRequestsPerUserPerDay →
      ((u.requestsTimestamps.filter (fun t => decide (now - 86400 < t))).filter
          (fun t => decide (now - 60 < t))).length < cfg.maxRequestsPerMinute →
      (∀ last, u.lastRequestTimestamp = some last →
          cfg.requestCooldownSeconds ≤ now - last) →
      (checkRateLimitsR cfg false now CommandType.general incr
          ⟨some u, dbS, dbB, led⟩).1 = RLOutcome.passed ∧
      (checkRateLimitsR cfg false now CommandType.general incr
          ⟨some u, dbS, dbB, led⟩).2.dbBlock = none ∧
      (checkRateLimitsR cfg false now CommandType.general incr
          ⟨some u, dbS, dbB, led⟩).2.cache.map UserData.blockedUntilTimestamp =
        some none ∧
      (checkRateLimitsR cfg false now CommandType.general incr
          ⟨some u, dbS, dbB, led⟩).2.cache.map UserData.violations = some 0) := by
  constructor
  · intro hlt
    unfold checkRateLimitsR
    rw [getUserData_cacheHit_not_trusted]
    dsimp only
    rw [hb]
    simp [hlt]
  · intro hge hq1 hq2 hq3 hcool
    have hnb : ¬ (now < bu) := by omega
    simp only [List.filter_filter] at hq3
    unfold checkRateLimitsR
    rw [getUserData_cacheHit_not_trusted]
    dsimp only
    rw [hb]
    cases hlast : u.lastRequestTimestamp with
    | none =>
      cases incr <;>
        simp [hnb, unblockUser, writeBack, hlast,
          Nat.not_le.mpr hq1, Nat.not_le.mpr hq2, Nat.not_le.mpr hq3]
    | some last =>
      have hcd : ¬ (now - last < cfg.requestCooldownSeconds) := by
        have := hcool last hlast
        omega
      cases incr <;>
        simp [hnb, unblockUser, writeBack, hlast, hcd,
          Nat.not_le.mpr hq1, Nat.not_le.mpr hq2, Nat.not_le.mpr hq3]

/-- A blocked user (until t = 100, five violations) with little history, for
the C1 witness. -/
def uC1w : UserData :=
  { newUserData defaultPersistentSettings with
    blockedUntilTimestamp := some 100
    violations := 5
    requestsTimestamps := [1]
    lastRequestTimestamp := some 1 }

/-- Claim C1 witness: at t = 50 (before blocked-until 100) the check fails
leaving the state untouched; at t = 100 it passes and clears the block in
cache and store. -/
theorem C1_block_window_witness :
    checkRateLimitsR defaultSettings false 50 CommandType.general true
        ⟨some uC1w, some defaultPersistentSettings, some (some 100, 5), [1]⟩ =
      (RLOutcome.blockedActive,
        ⟨some uC1w, some defaultPersistentSettings, some (some 100, 5), [1]⟩) ∧
    ((checkRateLimitsR defaultSettings false 100 CommandType.general true
        ⟨some uC1w, some defaultPersistentSettings, some (some 100, 5), [1]⟩).1 =
      RLOutcome.passed ∧
    (checkRateLimitsR defaultSettings false 100 CommandType.general true
        ⟨some uC1w, some defaultPersistentSettings, some (some 100, 5),
          [1]⟩).2.dbBlock = none ∧
    (checkRateLimitsR defaultSettings false 100 CommandType.general true
        ⟨some uC1w, some defaultPersistentSettings, some (some 100, 5),
          [1]⟩).2.cache.map UserData.blockedUntilTimestamp = some none ∧
    (checkRateLimitsR defaultSettings false 100 CommandType.general true
        ⟨some uC1w, some defaultPersistentSettings, some (some 100, 5),
          [1]⟩).2.cache.map UserData.violations = some 0) :=
  ⟨(C1_block_window defaultSettings uC1w (some defaultPersistentSettings)
      (some (some 100, 5)) [1] true 50 100 rfl).1 (by decide),
   (C1_block_window defaultSettings uC1w (some defaultPersistentSettings)
      (some (some 100, 5)) [1] true 100 100 rfl).2 (by decide) (by decide)
      (by decide) (by decide)
      (by
        intro last hlast
        simp [uC1w, newUserData] at hlast
        simp [defaultSettings]
        omega)⟩

set_option maxHeartbeats 2000000 in
/-- Claim C4 (confirmed): every failed quota check on the general path
(global daily, per-user daily, per-minute) increments the violation counter
by exactly 1; when the incremented counter reaches the configured threshold
the same call sets blocked-until to now plus the configured block duration,
persists the block row (until, violations) to the store, resets the
conversational state to NONE and discards both chat contexts; below the
threshold neither the block state nor the store is touched. -/
theorem C4_escalation (cfg : RLSettings) (u : UserData)
    (dbS : Option UserPersistentSettings) (dbB : Option (Option Int × Int))
    (led : List Int) (incr : Bool) (now : Int)
    (hb : u.blockedUntilTimestamp = none)
    (hout : (checkRateLimitsR cfg false now CommandType.general incr
        ⟨some u, dbS, dbB, led⟩).1 = RLOutcome.totalDailyLimit ∨
      (checkRateLimitsR cfg false now CommandType.general incr
        ⟨some u, dbS, dbB, led⟩).1 = RLOutcome.userDailyLimit ∨
      (checkRateLimitsR cfg false now CommandType.general incr
        ⟨some u, dbS, dbB, led⟩).1 = RLOutcome.minuteLimit) :
    (checkRateLimitsR cfg false now CommandType.general incr
        ⟨some u, dbS, dbB, led⟩).2.cache.map UserData.violations =
      some (u.violations + 1) ∧
    (cfg.limitViolationsBeforeBlock ≤ u.violations + 1 →
      (checkRateLimitsR cfg false now CommandType.general incr
          ⟨some u, dbS, dbB, led⟩).2.cache.map UserData.blockedUntilTimestamp =
        some (some (now + cfg.userBlockDurationHours * 3600)) ∧
      (checkRateLimitsR cfg false now CommandType.general incr
          ⟨some u, dbS, dbB, led⟩).2.dbBlock =
        some (some (now + cfg.userBlockDurationHours * 3600),
          u.violations + 1) ∧
      (checkRateLimitsR cfg false now CommandType.general incr
          ⟨some u, dbS, dbB, led⟩).2.cache.map UserData.state =
        some BotState.NONE ∧
      (checkRateLimitsR cfg false now CommandType.general incr
          ⟨some u, dbS, dbB, led⟩).2.cache.map UserData.geminiChat =
        some none ∧
      (checkRateLimitsR cfg false now CommandType.general incr
          ⟨some u, dbS, dbB, led⟩).2.cache.map UserData.mistralChatHistory =
        some []) ∧
    (u.violations + 1 < cfg.limitViolationsBeforeBlock →
      (checkRateLimitsR cfg false now CommandType.general incr
          ⟨some u, dbS, dbB, led⟩).2.cache.map UserData.blockedUntilTimestamp =
        some none ∧
      (checkRateLimitsR cfg false now CommandType.general incr
          ⟨some u, dbS, dbB, led⟩).2.dbBlock = dbB) := by
  unfold checkRateLimitsR at hout ⊢
  rw [getUserData_cacheHit_not_trusted] at hout ⊢
  dsimp only at hout ⊢
  rw [hb] at hout ⊢
  simp only [Bool.false_eq_true, if_false] at hout ⊢
  try dsimp only at hout ⊢
  rcases hout with h | h | h <;>
    split_ifs at h ⊢ <;>
    try (exfalso; revert h; dsimp only; intro h; exact RLOutcome.noConfusion h)
  all_goals
    unfold handleLimitViolation writeBack
  all_goals
    by_cases hth : cfg.limitViolationsBeforeBlock ≤ u.violations + 1
  all_goals
    try simp [hth, UserData.resetChatHistories, hb,
      show ¬ (u.violations + 1 < cfg.limitViolationsBeforeBlock) from by omega]
  all_goals
    simp [hth, hb,
      show u.violations + 1 < cfg.limitViolationsBeforeBlock from by omega]

/-- A user one violation from the block threshold with six requests inside
the last minute, for the C4 witness. -/
def uC4 : UserData :=
  { newUserData defaultPersistentSettings with
    requestsTimestamps := [0, 0, 0, 0, 0, 0]
    lastRequestTimestamp := some 0
    violations := 4 }

/-- Claim C4 witness: the per-minute violation at t = 1 takes the counter to
the threshold 5 and blocks until 3601 with the row persisted and the state
reset. -/
theorem C4_escalation_witness :
    (checkRateLimitsR defaultSettings false 1 CommandType.general true
        ⟨some uC4, some defaultPersistentSettings, none, []⟩).2.cache.map
      UserData.violations = some 5 ∧
    (checkRateLimitsR defaultSettings false 1 CommandType.general true
        ⟨some uC4, some defaultPersistentSettings, none, []⟩).2.cache.map
      UserData.blockedUntilTimestamp = some (some 3601) ∧
    (checkRateLimitsR defaultSettings false 1 CommandType.general true
        ⟨some uC4, some defaultPersistentSettings, none, []⟩).2.dbBlock =
      some (some 3601, 5) ∧
    (checkRateLimitsR defaultSettings false 1 CommandType.general true
        ⟨some uC4, some defaultPersistentSettings, none, []⟩).2.cache.map
      UserData.state = some BotState.NONE :=
  have hmain := C4_escalation defaultSettings uC4 (some defaultPersistentSettings)
    none [] true 1 rfl (Or.inr (Or.inr (by decide)))
  ⟨hmain.1, (hmain.2.1 (by decide)).1, (hmain.2.1 (by decide)).2.1,
    (hmain.2.1 (by decide)).2.2.1⟩

/-- Closed form of check_rate_limits on the general path for a non-trusted
user whose cached session carries no block. -/
theorem checkRL_general_eq (cfg : RLSettings) (now : Int) (incr : Bool)
    (u : UserData) (dbS : Option UserPersistentSettings)
    (dbB : Option (Option Int × Int)) (led : List Int)
    (hb : u.blockedUntilTimestamp = none) :
    checkRateLimitsR cfg false now CommandType.general incr
        ⟨some u, dbS, dbB, led⟩ =
      (let pu := u.requestsTimestamps.filter (fun t => decide (now - 24 * 3600 < t))
       let pl := led.filter (fun t => decide (now - 24 * 3600 < t))
       let u2 : UserData := { u with requestsTimestamps := pu }
       let s3 : SysState := ⟨some u, dbS, dbB, pl⟩
       if cfg.maxRequestsPerDay ≤ pl.length then
         let v := handleLimitViolation cfg now u2 s3
         (RLOutcome.totalDailyLimit, writeBack v.2 v.1)
       else if cfg.maxRequestsPerUserPerDay ≤ pu.length then
         let v := handleLimitViolation cfg now u2 s3
         (RLOutcome.userDailyLimit, writeBack v.2 v.1)
       else if cfg.maxRequestsPerMinute ≤
           (pu.filter (fun t => decide (now - 60 < t))).length then
         let v := handleLimitViolation cfg now u2 s3
         (RLOutcome.minuteLimit, writeBack v.2 v.1)
       else if (match u.lastRequestTimestamp with
                | some last => decide (now - last < cfg.requestCooldownSeconds)
                | none => false) = true then
         (RLOutcome.cooldown, writeBack s3 u2)
       else if incr then
         (RLOutcome.passed,
           writeBack { s3 with ledger := pl ++ [now] }
             { u2 with requestsTimestamps := pu ++ [now],
                       lastRequestTimestamp := some now })
       else
         (RLOutcome.passed, writeBack s3 u2)) := by
  unfold checkRateLimitsR
  rw [getUserData_cacheHit_not_trusted]
  dsimp only
  rw [hb]
  simp only [Bool.false_eq_true, if_false]
  simp only [hb]

/-- Closed form of check_rate_limits on the rate path for a non-trusted
user whose cached session carries no block. -/
theorem checkRL_rate_eq (cfg : RLSettings) (now : Int) (incr : Bool)
    (u : UserData) (dbS : Option UserPersistentSettings)
    (dbB : Option (Option Int × Int)) (led : List Int)
    (hb : u.blockedUntilTimestamp = none) :
    checkRateLimitsR cfg false now CommandType.rate incr
        ⟨some u, dbS, dbB, led⟩ =
      (if (match u.lastRateRequestTimestamp with
           | some last => decide (now - last < 60)
           | none => false) = true then
         (RLOutcome.rateCooldown, writeBack ⟨some u, dbS, dbB, led⟩ u)
       else
         (RLOutcome.passed,
           writeBack ⟨some u, dbS, dbB, led⟩
             { u with lastRateRequestTimestamp := some now })) := by
  unfold checkRateLimitsR
  rw [getUserData_cacheHit_not_trusted]
  dsimp only
  rw [hb]
  simp only [Bool.false_eq_true, if_false]
  simp only [hb]

/-- Claim C6 (confirmed): starting from a session without a block, whenever a
check_rate_limits call leaves the cached session with a blocked-until
timestamp set, the session's violation counter is at least 1 (the threshold
is a positive configuration value); the administrative manual ban instead
stores the sentinel violation value -1 in the session and (for a non-trusted
target) in the durable block row, with a 100-year blocked-until. -/
theorem C6_block_implies_violations (cfg : RLSettings) (u : UserData)
    (dbS : Option UserPersistentSettings) (dbB : Option (Option Int × Int))
    (led : List Int) (incr : Bool) (cmd : CommandType) (now : Int)
    (trusted : Bool)
    (hthr : 1 ≤ cfg.limitViolationsBeforeBlock)
    (hb : u.blockedUntilTimestamp = none) :
    (∀ u', (checkRateLimitsR cfg false now cmd incr
          ⟨some u, dbS, dbB, led⟩).2.cache = some u' →
        u'.blockedUntilTimestamp.isSome = true → 1 ≤ u'.violations) ∧
    (∀ u', (banUserAction trusted now ⟨some u, dbS, none, led⟩).cache =
          some u' →
        u'.violations = -1 ∧
        u'.blockedUntilTimestamp = some (now + 365 * 100 * 86400) ∧
        (trusted = false →
          (banUserAction trusted now ⟨some u, dbS, none, led⟩).dbBlock =
            some (some (now + 365 * 100 * 86400), -1))) := by
  constructor
  · intro u' hcache hsome
    cases cmd with
    | general =>
      rw [checkRL_general_eq cfg now incr u dbS dbB led hb] at hcache
      unfold handleLimitViolation writeBack UserData.resetChatHistories at hcache
      dsimp only at hcache
      split_ifs at hcache <;>
        simp only [Option.some.injEq] at hcache <;>
        subst hcache <;>
        simp_all <;>
        omega
    | rate =>
      rw [checkRL_rate_eq cfg now incr u dbS dbB led hb] at hcache
      unfold writeBack at hcache
      dsimp only at hcache
      split_ifs at hcache <;>
        simp only [Option.some.injEq] at hcache <;>
        subst hcache <;>
        simp_all
  · intro u' hcache
    unfold banUserAction banUserBody writeBack at hcache ⊢
    dsimp only at hcache ⊢
    simp only [Option.some.injEq] at hcache
    subst hcache
    refine ⟨rfl, rfl, fun htr => ?_⟩
    subst htr
    rw [getUserData_cacheHit_not_trusted]

/-- The cached session produced by the C6 witness's blocking call. -/
def uC6final : UserData :=
  { persistentSettings := defaultPersistentSettings
    state := BotState.NONE
    geminiChat := none
    requestsTimestamps := [0, 0, 0, 0, 0, 0]
    lastRequestTimestamp := some 0
    violations := 5
    blockedUntilTimestamp := some 3601
    mistralChatHistory := []
    lastRateRequestTimestamp := none }

/-- The cached session produced by the C6 witness's manual ban. -/
def uC6banned : UserData :=
  { persistentSettings := defaultPersistentSettings
    state := BotState.NONE
    geminiChat := none
    requestsTimestamps := [0, 0, 0, 0, 0, 0]
    lastRequestTimestamp := some 0
    violations := -1
    blockedUntilTimestamp := some 3153600001
    mistralChatHistory := []
    lastRateRequestTimestamp := none }

/-- Claim C6 witness: the per-minute escalation at t = 1 yields a blocked
session with violations 5 at least 1, and the manual ban yields sentinel -1
with the 100-year block persisted. -/
theorem C6_block_implies_violations_witness :
    1 ≤ uC6final.violations ∧
    uC6banned.violations = -1 ∧
    uC6banned.blockedUntilTimestamp = some 3153600001 ∧
    (banUserAction false 1 ⟨some uC4, some defaultPersistentSettings, none,
        []⟩).dbBlock = some (some 3153600001, -1) :=
  have h := C6_block_implies_violations defaultSettings uC4
    (some defaultPersistentSettings) none [] true CommandType.general 1 false
    (by decide) rfl
  have h2 := h.2 uC6banned (by decide)
  ⟨h.1 uC6final (by decide) rfl, h2.1, h2.2.1, h2.2.2 rfl⟩

set_option maxHeartbeats 1000000 in
/-- Claim C7 (confirmed): on the general path the capacity decisions are
taken on lists pruned with a strict greater-than against now - 24 h, the
per-minute count uses a strict greater-than against now - 60 s, and a
timestamp lying exactly on either boundary is excluded: the global-daily,
per-user-daily and per-minute outcomes are each equivalent to their cap
being reached on the strictly-pruned lists. -/
theorem C7_window_strictness (cfg : RLSettings) (u : UserData)
    (dbS : Option UserPersistentSettings) (dbB : Option (Option Int × Int))
    (led : List Int) (incr : Bool) (now : Int)
    (hb : u.blockedUntilTimestamp = none) :
    (∀ t, t ∈ u.requestsTimestamps.filter (fun x => decide (now - 86400 < x)) ↔
        (t ∈ u.requestsTimestamps ∧ now - 86400 < t)) ∧
    ((now - 86400) ∉
      u.requestsTimestamps.filter (fun x => decide (now - 86400 < x))) ∧
    ((now - 86400) ∉ led.filter (fun x => decide (now - 86400 < x))) ∧
    ((now - 60) ∉
      (u.requestsTimestamps.filter (fun x => decide (now - 86400 < x))).filter
        (fun x => decide (now - 60 < x))) ∧
    ((checkRateLimitsR cfg false now CommandType.general incr
        ⟨some u, dbS, dbB, led⟩).1 = RLOutcome.totalDailyLimit ↔
      cfg.maxRequestsPerDay ≤
        (led.filter (fun x => decide (now - 86400 < x))).length) ∧
    ((checkRateLimitsR cfg false now CommandType.general incr
        ⟨some u, dbS, dbB, led⟩).1 = RLOutcome.userDailyLimit ↔
      ((led.filter (fun x => decide (now - 86400 < x))).length <
          cfg.maxRequestsPerDay ∧
        cfg.maxRequestsPerUserPerDay ≤
          (u.requestsTimestamps.filter
            (fun x => decide (now - 86400 < x))).length)) ∧
    ((checkRateLimitsR cfg false now CommandType.general incr
        ⟨some u, dbS, dbB, led⟩).1 = RLOutcome.minuteLimit ↔
      ((led.filter (fun x => decide (now - 86400 < x))).length <
          cfg.maxRequestsPerDay ∧
        (u.requestsTimestamps.filter
          (fun x => decide (now - 86400 < x))).length <
          cfg.maxRequestsPerUserPerDay ∧
        cfg.maxRequestsPerMinute ≤
          ((u.requestsTimestamps.filter
            (fun x => decide (now - 86400 < x))).filter
              (fun x => decide (now - 60 < x))).length)) := by
  have hgen := checkRL_general_eq cfg now incr u dbS dbB led hb
  simp only [show ((24 : Int) * 3600) = 86400 from by norm_num] at hgen
  rw [hgen]
  try dsimp only
  split_ifs with h1 h2 h3 h4 h5 <;>
    simp_all [List.mem_filter]

/-- Claim C7 witness: at now = 1 the 24 h boundary timestamp is excluded and
the per-minute outcome is equivalent to (and here realized by) six
strictly-in-window timestamps against the cap 6. -/
theorem C7_window_strictness_witness :
    ((1 : Int) - 86400) ∉
      uC4.requestsTimestamps.filter (fun x => decide ((1 : Int) - 86400 < x)) ∧
    (checkRateLimitsR defaultSettings false 1 CommandType.general true
        ⟨some uC4, some defaultPersistentSettings, none, []⟩).1 =
      RLOutcome.minuteLimit :=
  have h := C7_window_strictness defaultSettings uC4
    (some defaultPersistentSettings) none [] true 1 rfl
  ⟨h.2.1, (h.2.2.2.2.2.2).mpr (by decide)⟩

/-- Claim C5 (amended): for a trusted user every get_user_data call returns
a session with no blocked-until timestamp and leaves no ACTIVE (permanent or
unexpired) block row in the store; when the cached session carried a block,
the violation counter is reset to 0 and the store row deleted. (An
already-expired store row with no cached block is left in place, and the
violation counter is untouched when the cached session had no block, so
"zero violations and no block record" does not hold unconditionally.) -/
theorem C5_trusted_fetch (now : Int) (s : SysState) :
    (getUserData true now s).2.cache = some (getUserData true now s).1 ∧
    (getUserData true now s).1.blockedUntilTimestamp = none ∧
    (∀ bu v, (getUserData true now s).2.dbBlock = some (bu, v) →
      ∃ t, bu = some t ∧ t ≤ now) ∧
    (∀ u, s.cache = some u → u.blockedUntilTimestamp.isSome = true →
      (getUserData true now s).1.violations = 0 ∧
      (getUserData true now s).2.dbBlock = none) := by
  obtain ⟨c, dS, dB, l⟩ := s
  cases c with
  | none =>
    unfold getUserData
    cases dS <;> simp [newUserData]
  | some u =>
    unfold getUserData checkAndUnblockIfTrusted cachedHasBlock
    cases hub : u.blockedUntilTimestamp with
    | none =>
      cases dB with
      | none => simp [hub]
      | some p =>
        obtain ⟨bu, v⟩ := p
        cases bu with
        | none => simp [hub]
        | some t =>
          by_cases hlt : now < t <;> simp [hub, hlt] <;> omega
    | some b =>
      cases dB <;> simp [hub]

/-- The trusted cached user of the C5 counterexample: three violations, no
cached block. -/
def uC5 : UserData :=
  { newUserData defaultPersistentSettings with violations := 3 }

/-- State for the C5 counterexample: an expired block row (until 5) in the
store while the cached session has no block. -/
def sC5 : SysState :=
  ⟨some uC5, some defaultPersistentSettings, some (some 5, 3), []⟩

/-- Claim C5 counterexample: at now = 10, the trusted fetch leaves the
violation counter at 3 (not zero) and the store still holds the block row
(user_id, 5, 3), refuting "the cached session has ... zero violations and
the durable store has no block record". -/
theorem C5_counterexample :
    (getUserData true 10 sC5).1.violations = 3 ∧
    (getUserData true 10 sC5).2.dbBlock = some (some 5, 3) :=
  ⟨rfl, rfl⟩

/-- Claim C5 witness: for the trusted user with an active cached block, the
fetch resets violations to 0 and deletes the store row. -/
theorem C5_trusted_fetch_witness :
    (getUserData true 0 sC3).1.violations = 0 ∧
    (getUserData true 0 sC3).2.dbBlock = none :=
  (C5_trusted_fetch 0 sC3).2.2.2 uC3 rfl rfl

/-- Claim C8 (amended): for a NON-TRUSTED user, when the store holds
persisted settings and a block row, a get_user_data call on an empty
registry returns a session with exactly the stored language/model and, if
the row is active (permanent NULL or unexpired), exactly the stored
blocked-until timestamp and violation count, leaving the row in place; an
already-expired row is instead deleted and not loaded. (For a trusted user
the active block is deliberately dropped, so the unrestricted claim fails.) -/
theorem C8_restart_roundtrip (ps : UserPersistentSettings) (buOpt : Option Int)
    (v : Int) (led : List Int) (now : Int) :
    ((buOpt = none ∨ ∃ b, buOpt = some b ∧ now < b) →
      (getUserData false now
        ⟨none, some ps, some (buOpt, v), led⟩).1.persistentSettings = ps ∧
      (getUserData false now
        ⟨none, some ps, some (buOpt, v), led⟩).1.blockedUntilTimestamp =
        buOpt ∧
      (getUserData false now
        ⟨none, some ps, some (buOpt, v), led⟩).1.violations = v ∧
      (getUserData false now
        ⟨none, some ps, some (buOpt, v), led⟩).2.dbBlock = some (buOpt, v) ∧
      (getUserData false now ⟨none, some ps, some (buOpt, v), led⟩).2.cache =
        some (getUserData false now
          ⟨none, some ps, some (buOpt, v), led⟩).1) ∧
    ((∃ b, buOpt = some b ∧ b ≤ now) →
      (getUserData false now
        ⟨none, some ps, some (buOpt, v), led⟩).1.persistentSettings = ps ∧
      (getUserData false now
        ⟨none, some ps, some (buOpt, v), led⟩).1.blockedUntilTimestamp =
        none ∧
      (getUserData false now
        ⟨none, some ps, some (buOpt, v), led⟩).1.violations = 0 ∧
      (getUserData false now
        ⟨none, some ps, some (buOpt, v), led⟩).2.dbBlock = none) := by
  constructor
  · rintro (h | ⟨b, rfl, hlt⟩)
    · subst h
      unfold getUserData
      simp [newUserData]
    · unfold getUserData
      simp [newUserData, hlt]
  · rintro ⟨b, rfl, hge⟩
    unfold getUserData
    simp [newUserData, show ¬ (now < b) from by omega]

/-- Stored settings for the C8 counterexample. -/
def psC8 : UserPersistentSettings := { language := "ru", geminiModel := "m" }

/-- State for the C8 counterexample: empty registry, stored settings and an
active block row (until 100, violations 3). -/
def sC8 : SysState := ⟨none, some psC8, some (some 100, 3), []⟩

/-- Claim C8 counterexample: for a TRUSTED user, the restart fetch at now = 0
(block active until 100) does not restore the block: the session comes back
unblocked and the store row is deleted, refuting the claim read over every
user. -/
theorem C8_counterexample :
    sC8.dbBlock = some (some 100, 3) ∧
    ((0 : Int) < 100) ∧
    ¬ ((getUserData true 0 sC8).1.blockedUntilTimestamp = some 100) ∧
    (getUserData true 0 sC8).2.dbBlock = none := by
  refine ⟨rfl, by decide, by decide, rfl⟩

/-- Claim C8 witness: for a non-trusted user the active row (until 100,
violations 3) and settings are restored exactly at now = 0; at now = 200 the
expired row is deleted and not loaded. -/
theorem C8_restart_roundtrip_witness :
    (getUserData false 0 sC8).1.persistentSettings = psC8 ∧
    (getUserData false 0 sC8).1.blockedUntilTimestamp = some 100 ∧
    (getUserData false 0 sC8).1.violations = 3 ∧
    (getUserData false 200 sC8).1.blockedUntilTimestamp = none ∧
    (getUserData false 200 sC8).2.dbBlock = none :=
  have hA := (C8_restart_roundtrip psC8 (some 100) 3 [] 0).1
    (Or.inr ⟨100, rfl, by decide⟩)
  have hB := (C8_restart_roundtrip psC8 (some 100) 3 [] 200).2
    ⟨100, rfl, by decide⟩
  ⟨hA.1, hA.2.1, hA.2.2.1, hB.2.1, hB.2.2.2⟩

/-- Claim C10 (amended): the block-clearing paths — expiry detected in the
rate-limit check or in the blocked-status check, administrative unban,
payment-success unblock, and trust reconciliation of a CACHED block — all
reset the session's violation counter to 0 and delete the store's block row
in the same operation (on the general path the same call may afterwards
record a fresh violation). Exception: the DB-only trust-reconciliation
branch, taken when the trusted user's cached session has no block, deletes
an active store row without touching the cached violation counter. -/
theorem C10_unblock_resets (cfg : RLSettings) (u : UserData)
    (dbS : Option UserPersistentSettings) (dbB : Option (Option Int × Int))
    (led : List Int) (incr : Bool) (now bu t v : Int) :
    ((unblockUser u ⟨some u, dbS, dbB, led⟩).1.violations = 0 ∧
     (unblockUser u ⟨some u, dbS, dbB, led⟩).1.blockedUntilTimestamp = none ∧
     (unblockUser u ⟨some u, dbS, dbB, led⟩).2.dbBlock = none) ∧
    (u.blockedUntilTimestamp = some bu → bu ≤ now →
      (checkRateLimitsR cfg false now CommandType.rate incr
          ⟨some u, dbS, dbB, led⟩).2.cache.map UserData.violations = some 0 ∧
      (checkRateLimitsR cfg false now CommandType.rate incr
          ⟨some u, dbS, dbB, led⟩).2.cache.map UserData.blockedUntilTimestamp =
        some none ∧
      (checkRateLimitsR cfg false now CommandType.rate incr
          ⟨some u, dbS, dbB, led⟩).2.dbBlock = none) ∧
    (u.blockedUntilTimestamp = some bu → bu ≤ now →
      (isUserBlocked false now ⟨some u, dbS, dbB, led⟩).1 = false ∧
      (isUserBlocked false now
          ⟨some u, dbS, dbB, led⟩).2.cache.map UserData.violations = some 0 ∧
      (isUserBlocked false now
          ⟨some u, dbS, dbB, led⟩).2.cache.map UserData.blockedUntilTimestamp =
        some none ∧
      (isUserBlocked false now ⟨some u, dbS, dbB, led⟩).2.dbBlock = none) ∧
    ((unbanUserAction false now
        ⟨some u, dbS, some (some t, v), led⟩).cache.map UserData.violations =
      some 0 ∧
     (unbanUserAction false now
        ⟨some u, dbS, some (some t, v), led⟩).cache.map
       UserData.blockedUntilTimestamp = some none ∧
     (unbanUserAction false now
        ⟨some u, dbS, some (some t, v), led⟩).dbBlock = none) ∧
    (u.blockedUntilTimestamp = some bu →
      (paymentSuccessAction false now
          ⟨some u, dbS, dbB, led⟩).cache.map UserData.violations = some 0 ∧
      (paymentSuccessAction false now
          ⟨some u, dbS, dbB, led⟩).cache.map UserData.blockedUntilTimestamp =
        some none ∧
      (paymentSuccessAction false now ⟨some u, dbS, dbB, led⟩).dbBlock =
        none) ∧
    (u.blockedUntilTimestamp = some bu →
      (checkAndUnblockIfTrusted true now
          ⟨some u, dbS, dbB, led⟩).cache.map UserData.violations = some 0 ∧
      (checkAndUnblockIfTrusted true now
          ⟨some u, dbS, dbB, led⟩).cache.map UserData.blockedUntilTimestamp =
        some none ∧
      (checkAndUnblockIfTrusted true now ⟨some u, dbS, dbB, led⟩).dbBlock =
        none) := by
  refine ⟨⟨rfl, rfl, rfl⟩, ?_, ?_, ?_, ?_, ?_⟩
  · intro hb hge
    unfold checkRateLimitsR
    rw [getUserData_cacheHit_not_trusted]
    dsimp only
    rw [hb]
    cases hl : u.lastRateRequestTimestamp with
    | none =>
      simp [hb, hl, show ¬ (now < bu) from by omega, unblockUser, writeBack]
    | some last =>
      by_cases h60 : now - last < 60 <;>
        simp [hb, hl, h60, show ¬ (now < bu) from by omega, unblockUser,
          writeBack]
  · intro hb hge
    unfold isUserBlocked
    rw [getUserData_cacheHit_not_trusted]
    dsimp only
    rw [hb]
    simp [show ¬ (now < bu) from by omega, unblockUser, writeBack]
  · unfold unbanUserAction
    dsimp only
    by_cases ht : t < now
    · simp [ht, unblockUser, writeBack]
    · rw [if_neg ht, getUserData_cacheHit_not_trusted]
      simp [unblockUser, writeBack]
  · intro hb
    unfold paymentSuccessAction
    rw [getUserData_cacheHit_not_trusted]
    dsimp only
    rw [hb]
    simp [unblockUser, writeBack, checkAndUnblockIfTrusted, cachedHasBlock]
  · intro hb
    unfold checkAndUnblockIfTrusted cachedHasBlock
    cases dbB <;> simp [hb]

/-- State for the C10 counterexample: trusted user cached without a block but
with three violations, while the store holds an active block row. -/
def sC10 : SysState :=
  ⟨some uC5, some defaultPersistentSettings, some (some 100, 3), []⟩

/-- Claim C10 counterexample: the DB-only trust-reconciliation branch at
now = 0 deletes the store's active block row (an unblock) but leaves the
cached violation counter at 3, refuting "every path that clears a user's
block also resets that user's violation counter to 0 in the same
operation". -/
theorem C10_counterexample :
    (checkAndUnblockIfTrusted true 0 sC10).dbBlock = none ∧
    (checkAndUnblockIfTrusted true 0 sC10).cache.map UserData.violations =
      some 3 :=
  ⟨rfl, rfl⟩

/-- Claim C10 witness: for the blocked user uC3 (blocked until 100, five
violations) each modelled clearing path at now = 100 resets the counter and
deletes the store row. -/
theorem C10_unblock_resets_witness :
    (checkRateLimitsR defaultSettings false 100 CommandType.rate true
        sC3).2.dbBlock = none ∧
    (isUserBlocked false 100 sC3).1 = false ∧
    (unbanUserAction false 100 sC3).cache.map UserData.violations = some 0 ∧
    (paymentSuccessAction false 100 sC3).dbBlock = none ∧
    (checkAndUnblockIfTrusted true 100 sC3).cache.map UserData.violations =
      some 0 :=
  have h := C10_unblock_resets defaultSettings uC3
    (some defaultPersistentSettings) (some (some 100, 5)) [] true 100 100 100 5
  ⟨(h.2.1 rfl (by decide)).2.2, (h.2.2.1 rfl (by decide)).1,
    (h.2.2.2.1).1, (h.2.2.2.2.1 rfl).2.2, (h.2.2.2.2.2 rfl).1⟩

end AI2talk
